import Mathlib

/-!
Verification of the clickhouse-srv native-TCP server library.

The development shallowly embeds the crate's packet parser, per-connection
transport dispatcher (`src/io/transport.rs`), the `Cmd::apply` dispatcher
(`src/cmd.rs`), the query-result streaming thread, and the exception /
hello / HTTP-courtesy encoders.  Byte buffers are `List Nat` (one entry per
byte), machine integers are `Nat`, and fallible parsing returns an explicit
error sum so that the `WouldBlock` / `Malformed` distinction of the source
is preserved.

Modules of the crate that are not present in the source tree
(`binary/read_ex.rs`, `binary/encoder.rs`, `errors.rs`, `types/*`,
`protocols/protocol_hello.rs`, `protocols/protocol_type.rs`) are modelled
from the specification; every such definition carries a doc comment that
starts with `Modelled from the spec:`.
-/

/-! ### Protocol constants

Modelled from the spec: the packet tag table of §6 and the revision
thresholds of §6 / `src/protocols/mod.rs`. -/

/-- Modelled from the spec: client-to-server packet tag `Hello`. -/
def CLIENT_HELLO : Nat := 0
/-- Modelled from the spec: client-to-server packet tag `Query`. -/
def CLIENT_QUERY : Nat := 1
/-- Modelled from the spec: client-to-server packet tag `Data`. -/
def CLIENT_DATA : Nat := 2
/-- Modelled from the spec: client-to-server packet tag `Cancel`. -/
def CLIENT_CANCEL : Nat := 3
/-- Modelled from the spec: client-to-server packet tag `Ping`. -/
def CLIENT_PING : Nat := 4
/-- Modelled from the spec: client-to-server packet tag `Scalar`. -/
def CLIENT_SCALAR : Nat := 7

/-- Modelled from the spec: server-to-client packet tag `Hello`. -/
def SERVER_HELLO : Nat := 0
/-- Modelled from the spec: server-to-client packet tag `Data`. -/
def SERVER_DATA : Nat := 1
/-- Modelled from the spec: server-to-client packet tag `Exception`. -/
def SERVER_EXCEPTION : Nat := 2
/-- Modelled from the spec: server-to-client packet tag `Progress`. -/
def SERVER_PROGRESS : Nat := 3
/-- Modelled from the spec: server-to-client packet tag `Pong`. -/
def SERVER_PONG : Nat := 4
/-- Modelled from the spec: server-to-client packet tag `EndOfStream`. -/
def SERVER_END_OF_STREAM : Nat := 5

/-- Revision threshold for the embedded ClientInfo (`src/protocols/mod.rs`). -/
def DBMS_MIN_REVISION_WITH_CLIENT_INFO : Nat := 54032
/-- Revision threshold for the server timezone field (`src/protocols/mod.rs`). -/
def DBMS_MIN_REVISION_WITH_SERVER_TIMEZONE : Nat := 54058
/-- Revision threshold for the quota key in ClientInfo (`src/protocols/mod.rs`). -/
def DBMS_MIN_REVISION_WITH_QUOTA_KEY_IN_CLIENT_INFO : Nat := 54060
/-- Revision threshold for the server display name (`src/protocols/mod.rs`). -/
def DBMS_MIN_REVISION_WITH_SERVER_DISPLAY_NAME : Nat := 54372
/-- Revision threshold for the version patch fields (`src/protocols/mod.rs`). -/
def DBMS_MIN_REVISION_WITH_VERSION_PATCH : Nat := 54401

/-- Modelled from the spec: the `INITIAL_QUERY` query kind used when
`QueryRequest::read_from` synthesizes a minimal ClientInfo
(`protocols/protocol_type.rs` is absent from the tree). -/
def INITIAL_QUERY : Nat := 1

/-! ### Byte-level encoding primitives

Modelled from the spec (§4.1): the `binary/encoder.rs` module is absent from
the tree.  An encoder buffer is modelled as the list of atomic writes the
source performs (`Enc`), and `encBytes` flattens it to raw bytes using the
spec's LEB128 varint and length-prefixed-string formats. -/

/-- One atomic write into an `Encoder` buffer. -/
inductive Enc where
  | uvarint (n : Nat)
  | str (s : String)
  | fixu32 (n : Nat)
  | byte (n : Nat)
deriving DecidableEq

/-- Modelled from the spec: the raw bytes of an ASCII string (every string the
claims exercise is ASCII, so the UTF-8 bytes are the character codes). -/
def asciiBytes (s : String) : List Nat :=
  s.data.map (fun c => c.toNat)

/-- Fuel-indexed helper for `uvarintBytes`; ten groups cover every value the
protocol carries. -/
def uvarintBytesAux : Nat → Nat → List Nat
  | 0, _ => []
  | fuel + 1, n => if n < 128 then [n] else (n % 128 + 128) :: uvarintBytesAux fuel (n / 128)

/-- Modelled from the spec: unsigned LEB128 encoding of a varint (§4.1). -/
def uvarintBytes (n : Nat) : List Nat := uvarintBytesAux 10 n

/-- Modelled from the spec: the four little-endian bytes of a `u32` (§4.1). -/
def u32leBytes (n : Nat) : List Nat :=
  [n % 256, n / 256 % 256, n / 65536 % 256, n / 16777216 % 256]

/-- Modelled from the spec: flatten an encoder buffer to raw wire bytes; a
string is written as a varint length followed by its raw bytes (§4.1). -/
def encBytes (items : List Enc) : List Nat :=
  items.flatMap (fun i =>
    match i with
    | Enc.uvarint n => uvarintBytes n
    | Enc.str s => uvarintBytes (asciiBytes s).length ++ asciiBytes s
    | Enc.fixu32 n => u32leBytes n
    | Enc.byte n => [n % 256])

/-! ### Parse errors and the restartable cursor reader

The source's `errors.rs` is absent from the tree; `PErr` is modelled from the
spec's error taxonomy (§7): `WouldBlock` (insufficient input, never fatal) is
distinguished from malformed input, and the two driver errors the parser
raises (`UnknownPacket`, `UnexpectedPacket`) are explicit. -/

/-- Modelled from the spec: parser-level error taxonomy (§7). -/
inductive PErr where
  | wouldBlock
  | malformed (msg : String)
  | unknownPacket (packet : Nat)
  | unexpectedPacket
deriving DecidableEq

/-- Mirrors `Error::is_would_block` used by both parse-loop callers. -/
def PErr.is_would_block : PErr → Bool
  | PErr.wouldBlock => true
  | _ => false

/-- A read cursor over an in-memory buffer, as `std::io::Cursor<&Vec<u8>>` in
`try_parse_msg` / `Connection::parse_packet`: the data plus a position. -/
structure Cursor where
  data : List Nat
  pos : Nat
deriving DecidableEq

/-- Outcome of running a reader: a result plus the final cursor position
(the position is meaningful for errors too, matching `cursor.position()`
being read after a failed parse in `try_parse_msg`). -/
structure RdOut (α : Type) where
  res : Except PErr α
  pos : Nat

/-- A raw reader function. -/
def RdFun (α : Type) : Type := Cursor → RdOut α

/-- Cursor discipline: starting inside the buffer, a reader can only move the
position forward and never past the end of the buffer. -/
def RdFun.WF {α : Type} (r : RdFun α) : Prop :=
  ∀ d p, p ≤ d.length → p ≤ (r ⟨d, p⟩).pos ∧ (r ⟨d, p⟩).pos ≤ d.length

/-- Readers packaged with their cursor discipline; the whole packet parser is
built inside `M`, so the discipline holds by construction. -/
def M (α : Type) : Type := { r : RdFun α // r.WF }

/-- The reader that returns `a` without consuming input. -/
def M.pure {α : Type} (a : α) : M α :=
  ⟨fun c => ⟨Except.ok a, c.pos⟩, by
    intro d p hp
    exact ⟨Nat.le_refl p, hp⟩⟩

/-- The reader that fails with `e` without consuming input. -/
def M.fail {α : Type} (e : PErr) : M α :=
  ⟨fun c => ⟨Except.error e, c.pos⟩, by
    intro d p hp
    exact ⟨Nat.le_refl p, hp⟩⟩

/-- Sequencing of readers: run `x`, then run `f` on its value from the new
position; errors propagate with the position where they occurred. -/
def M.bind {α β : Type} (x : M α) (f : α → M β) : M β :=
  ⟨fun c =>
    match (x.val c).res with
    | Except.error e => ⟨Except.error e, (x.val c).pos⟩
    | Except.ok a => (f a).val ⟨c.data, (x.val c).pos⟩, by
    intro d p hp
    have hx := x.property d p hp
    dsimp only
    cases hres : (x.val ⟨d, p⟩).res with
    | error e =>
        simp only [hres]
        exact hx
    | ok a =>
        simp only [hres]
        have hf := (f a).property d (x.val ⟨d, p⟩).pos hx.2
        exact ⟨Nat.le_trans hx.1 hf.1, hf.2⟩⟩

instance : Monad M where
  pure := M.pure
  bind := M.bind

/-- Read one byte; `WouldBlock` if the buffer is exhausted.  This is the one
primitive all `ReadEx` reads reduce to (modelled from the spec, §4.1:
`binary/read_ex.rs` is absent from the tree). -/
def readByte : M Nat :=
  ⟨fun c =>
    if h : c.pos < c.data.length then
      ⟨Except.ok (c.data.get ⟨c.pos, h⟩), c.pos + 1⟩
    else
      ⟨Except.error PErr.wouldBlock, c.pos⟩, by
    intro d p hp
    dsimp only
    by_cases h : p < d.length
    · simp only [dif_pos h]
      exact ⟨Nat.le_succ p, h⟩
    · simp only [dif_neg h]
      exact ⟨Nat.le_refl p, hp⟩⟩

/-- Number of unread bytes; consumes nothing (used only to bound fuelled
loops, which the source expresses as unbounded `loop`s). -/
def remainingM : M Nat :=
  ⟨fun c => ⟨Except.ok (c.data.length - c.pos), c.pos⟩, by
    intro d p hp
    exact ⟨Nat.le_refl p, hp⟩⟩

/-- Read exactly `n` raw bytes. -/
def readBytes : Nat → M (List Nat)
  | 0 => M.pure []
  | n + 1 =>
    M.bind readByte (fun b =>
      M.bind (readBytes n) (fun rest =>
        M.pure (b :: rest)))

/-- Fuel-indexed LEB128 accumulator for `readUVarint`. -/
def readUVarintAux : Nat → Nat → Nat → M Nat
  | 0, _, _ => M.fail (PErr.malformed "uvarint overflow")
  | fuel + 1, shiftAmt, acc =>
    M.bind readByte (fun b =>
      if b < 128 then M.pure (acc + b * 2 ^ shiftAmt)
      else readUVarintAux fuel (shiftAmt + 7) (acc + b % 128 * 2 ^ shiftAmt))

/-- Modelled from the spec: read an unsigned LEB128 varint (§4.1). -/
def readUVarint : M Nat := readUVarintAux 10 0 0

/-- Modelled from the spec: read a length-prefixed string — varint length
then raw bytes (§4.1).  The bytes are kept raw (`List Nat`). -/
def readString : M (List Nat) :=
  M.bind readUVarint (fun n => readBytes n)

/-- Modelled from the spec: read a little-endian `u32` (§4.1). -/
def readU32le : M Nat :=
  M.bind (readBytes 4) (fun bs =>
    match bs with
    | [b0, b1, b2, b3] => M.pure (b0 + b1 * 256 + b2 * 65536 + b3 * 16777216)
    | _ => M.fail (PErr.malformed "u32"))

/-! ### Wire data structures -/

/-- The client Hello tuple.  The struct layout is as used throughout the
tree; `read_from` is modelled from the spec (§3): client name, client
version (major, minor), client revision, default database, default user,
password — the patch component is only read later, from ClientInfo. -/
structure HelloRequest where
  client_name : List Nat := []
  client_version_major : Nat := 0
  client_version_minor : Nat := 0
  client_version_patch : Nat := 0
  client_revision : Nat := 0
  default_database : List Nat := []
  default_user : List Nat := []
  password : List Nat := []
deriving DecidableEq

/-- The embedded ClientInfo of a QueryRequest (`protocols/protocol_query.rs`). -/
structure QueryClientInfo where
  query_kind : Nat := 0
  initial_user : List Nat := []
  initial_query_id : List Nat := []
  initial_address : List Nat := []
  interface : Nat := 0
  os_user : List Nat := []
  client_hostname : List Nat := []
  client_name : List Nat := []
  client_version_major : Nat := 0
  client_version_minor : Nat := 0
  client_version_patch : Nat := 0
  client_revision : Nat := 0
  http_method : Nat := 0
  http_user_agent : List Nat := []
  quota_key : List Nat := []
deriving DecidableEq

/-- A decoded QueryRequest (`protocols/protocol_query.rs`). -/
structure QueryRequest where
  query_id : List Nat := []
  client_info : QueryClientInfo := {}
  stage : Nat := 0
  compression : Nat := 0
  query : List Nat := []
deriving DecidableEq

/-- One column of a block: name, type string and its raw data bytes. -/
structure Col where
  name : List Nat
  typ : List Nat
  data : List Nat
deriving DecidableEq

/-- Modelled from the spec: a Block (§3) — BlockInfo (`is_overflows`,
`bucket_num`), columns and the declared row count (`types/block.rs` is
absent from the tree).  When the block arrived inside a compressed frame
the undecompressed payload is kept raw in `raw_compressed` (LZ4 and the
CityHash implementation are external dependencies). -/
structure Block where
  is_overflows : Bool := false
  bucket_num : Nat := 0
  columns : List Col := []
  n_rows : Nat := 0
  raw_compressed : Option (List Nat) := none
deriving DecidableEq

/-- Modelled from the spec: a Block is empty iff it carries zero rows (§3). -/
def Block.is_empty (b : Block) : Bool := b.n_rows = 0

/-- The packet sum carried from parser to dispatcher (`protocols`). -/
inductive Packet where
  | ping
  | cancel
  | hello (req : HelloRequest)
  | query (req : QueryRequest)
  | data (block : Block)
deriving DecidableEq

/-! ### Packet decoding (`binary/parser.rs`, `protocols/protocol_query.rs`) -/

/-- Modelled from the spec: `HelloRequest::read_from` (§3; the file
`protocols/protocol_hello.rs` is absent from the tree). -/
def helloRequestRead : M HelloRequest :=
  M.bind readString (fun client_name =>
  M.bind readUVarint (fun client_version_major =>
  M.bind readUVarint (fun client_version_minor =>
  M.bind readUVarint (fun client_revision =>
  M.bind readString (fun default_database =>
  M.bind readString (fun default_user =>
  M.bind readString (fun password =>
  M.pure { client_name := client_name,
           client_version_major := client_version_major,
           client_version_minor := client_version_minor,
           client_version_patch := 0,
           client_revision := client_revision,
           default_database := default_database,
           default_user := default_user,
           password := password })))))))

/-- Decoder of `QueryClientInfo::read_from` (`protocols/protocol_query.rs`):
query kind, then — unless the kind is 0 — initial user/query-id/address,
interface, the TCP or HTTP branch, and the revision-gated quota key and
version patch. -/
def queryClientInfoRead : M QueryClientInfo := do
  let query_kind ← readByte
  if query_kind = 0 then
    M.pure { query_kind := query_kind }
  else do
    let initial_user ← readString
    let initial_query_id ← readString
    let initial_address ← readString
    let interface ← readByte
    let base : QueryClientInfo :=
      { query_kind := query_kind,
        initial_user := initial_user,
        initial_query_id := initial_query_id,
        initial_address := initial_address,
        interface := interface }
    let ci ←
      if interface = 1 then do
        let os_user ← readString
        let client_hostname ← readString
        let client_name ← readString
        let client_version_major ← readUVarint
        let client_version_minor ← readUVarint
        let client_revision ← readUVarint
        M.pure { base with
                   os_user := os_user,
                   client_hostname := client_hostname,
                   client_name := client_name,
                   client_version_major := client_version_major,
                   client_version_minor := client_version_minor,
                   client_revision := client_revision,
                   client_version_patch := client_revision }
      else if interface = 2 then do
        let http_method ← readByte
        let http_user_agent ← readString
        M.pure { base with http_method := http_method, http_user_agent := http_user_agent }
      else
        M.pure base
    let ci ←
      if DBMS_MIN_REVISION_WITH_QUOTA_KEY_IN_CLIENT_INFO ≤ ci.client_revision then do
        let quota_key ← readString
        M.pure { ci with quota_key := quota_key }
      else
        M.pure ci
    let ci ←
      if ci.interface = 1 ∧ DBMS_MIN_REVISION_WITH_VERSION_PATCH ≤ ci.client_revision then do
        let client_version_patch ← readUVarint
        M.pure { ci with client_version_patch := client_version_patch }
      else
        M.pure ci
    M.pure ci

/-- Fuel-indexed settings loop of `QueryRequest::read_from`: keys are read
and discarded until an empty key; the source's unbounded `loop` is bounded
by the buffer length at the call site. -/
def readSettingsAux : Nat → M Unit
  | 0 => M.fail (PErr.malformed "settings")
  | fuel + 1 => do
    let s ← readString
    if s.isEmpty then M.pure () else readSettingsAux fuel

/-- The settings block: consumed until an empty key (`protocol_query.rs`). -/
def readSettings : M Unit := do
  let n ← remainingM
  readSettingsAux (n + 1)

/-- Decoder of `QueryRequest::read_from` (`protocols/protocol_query.rs`):
query id; ClientInfo iff the Hello revision crosses the CLIENT_INFO
threshold, synthesized from the HelloRequest when its kind is 0; interface
forced to TCP; the discarded settings; stage, compression, query text. -/
def queryRequestRead (hello_request : HelloRequest) : M QueryRequest := do
  let query_id ← readString
  let client_info ←
    if DBMS_MIN_REVISION_WITH_CLIENT_INFO ≤ hello_request.client_revision then
      queryClientInfoRead
    else
      M.pure {}
  let client_info :=
    if client_info.query_kind = 0 then
      { client_info with
        query_kind := INITIAL_QUERY,
        client_name := hello_request.client_name,
        client_version_major := hello_request.client_version_major,
        client_version_minor := hello_request.client_version_minor,
        client_version_patch := hello_request.client_version_patch,
        client_revision := hello_request.client_revision }
    else client_info
  let client_info := { client_info with interface := 1 }
  readSettings
  let stage ← readUVarint
  let compression ← readUVarint
  let query ← readString
  M.pure { query_id := query_id,
           client_info := client_info,
           stage := stage,
           compression := compression,
           query := query }

/-- Fuel-indexed BlockInfo field list: tag 0 terminates, tag 1 carries
`is_overflows`, tag 2 carries `bucket_num` (modelled from the spec, §4.3). -/
def readBlockInfoAux : Nat → Bool → Nat → M (Bool × Nat)
  | 0, _, _ => M.fail (PErr.malformed "block info")
  | fuel + 1, ov, bn => do
    let tag ← readUVarint
    if tag = 0 then M.pure (ov, bn)
    else if tag = 1 then do
      let b ← readByte
      readBlockInfoAux fuel (b ≠ 0) bn
    else if tag = 2 then do
      let v ← readU32le
      readBlockInfoAux fuel ov v
    else M.fail (PErr.malformed "block info tag")

/-- Per-row reads of a `String` column (modelled from the spec, §4.2). -/
def readStringRows : Nat → M (List (List Nat))
  | 0 => M.pure []
  | n + 1 => do
    let s ← readString
    let rest ← readStringRows n
    M.pure (s :: rest)

/-- Modelled from the spec: width in bytes of the fixed-width column types
(§4.2).  The model covers the scalar core of the type grammar; other type
strings decode as `Malformed`. -/
def fixedTypeWidth (typ : List Nat) : Option Nat :=
  if typ = asciiBytes "UInt8" ∨ typ = asciiBytes "Int8" then some 1
  else if typ = asciiBytes "UInt16" ∨ typ = asciiBytes "Int16" ∨ typ = asciiBytes "Date" then some 2
  else if typ = asciiBytes "UInt32" ∨ typ = asciiBytes "Int32" ∨
          typ = asciiBytes "Float32" ∨ typ = asciiBytes "DateTime" then some 4
  else if typ = asciiBytes "UInt64" ∨ typ = asciiBytes "Int64" ∨
          typ = asciiBytes "Float64" then some 8
  else none

/-- Modelled from the spec: column data — `row_count * width` bytes for the
fixed-width types, a varint-length string per row for `String` (§4.2). -/
def readColumnData (typ : List Nat) (rows : Nat) : M (List Nat) :=
  match fixedTypeWidth typ with
  | some w => readBytes (rows * w)
  | none =>
    if typ = asciiBytes "String" then do
      let ss ← readStringRows rows
      M.pure ss.flatten
    else
      M.fail (PErr.malformed "column type")

/-- Per-column reads: name, type string, then the column data (modelled from
the spec, §4.3). -/
def readColumns : Nat → Nat → M (List Col)
  | 0, _ => M.pure []
  | n + 1, rows => do
    let name ← readString
    let typ ← readString
    let data ← readColumnData typ rows
    let rest ← readColumns n rows
    M.pure ({ name, typ, data } :: rest)

/-- Modelled from the spec: `Block::load` (§4.3; `types/block.rs` is absent
from the tree).  Uncompressed: block info, column count, row count, then the
columns.  Compressed: the 16-byte checksum, the method tag `0x82`, the two
`u32` sizes and the `compressed_size - 9` payload bytes are consumed; the
payload is kept raw (LZ4 decompression and CityHash verification live in
external dependencies), which leaves the consumed byte count — all the
claims need — exact. -/
def blockLoad (compress : Bool) : M Block :=
  if compress then do
    let _checksum ← readBytes 16
    let method ← readByte
    if method = 130 then do
      let compSize ← readU32le
      let _uncompSize ← readU32le
      if 9 ≤ compSize then do
        let payload ← readBytes (compSize - 9)
        M.pure { raw_compressed := some payload }
      else M.fail (PErr.malformed "compressed size")
    else M.fail (PErr.malformed "compression method")
  else do
    let r ← remainingM
    let info ← readBlockInfoAux (r + 1) false 0
    let nCols ← readUVarint
    let nRows ← readUVarint
    let cols ← readColumns nCols nRows
    M.pure { is_overflows := info.1,
             bucket_num := info.2,
             columns := cols,
             n_rows := nRows }

/-- The `Parser::parse_data` branch (`binary/parser.rs`): a leading
temporary-table string, then the block. -/
def parseDataM (compress : Bool) : M Packet :=
  M.bind readString (fun _temporary_table =>
  M.bind (blockLoad compress) (fun block =>
  M.pure (Packet.data block)))

/-- The `Parser::parse_hello` branch (`binary/parser.rs`). -/
def parseHelloM : M Packet :=
  M.bind helloRequestRead (fun h => M.pure (Packet.hello h))

/-- The `Parser::parse_query` branch (`binary/parser.rs`): a Query is only
decoded when a Hello has been seen; otherwise `UnexpectedPacket`. -/
def parseQueryM (hello : Option HelloRequest) : M Packet :=
  match hello with
  | some h => M.bind (queryRequestRead h) (fun q => M.pure (Packet.query q))
  | none => M.fail PErr.unexpectedPacket

/-- The `Parser::parse_packet` dispatch (`binary/parser.rs`): one varint
packet kind, then the branch per client tag; anything else is
`UnknownPacket`. -/
def parsePacketM (hello : Option HelloRequest) (compress : Bool) : M Packet :=
  M.bind readUVarint (fun packet =>
    if packet = CLIENT_PING then M.pure Packet.ping
    else if packet = CLIENT_CANCEL then M.pure Packet.cancel
    else if packet = CLIENT_DATA ∨ packet = CLIENT_SCALAR then parseDataM compress
    else if packet = CLIENT_QUERY then parseQueryM hello
    else if packet = CLIENT_HELLO then parseHelloM
    else M.fail (PErr.unknownPacket packet))

/-- Run the packet parser from position 0 of a read buffer, returning the
result and the final cursor position, as `try_parse_msg` does. -/
def parsePacketRun (hello : Option HelloRequest) (compress : Bool) (rd : List Nat) : RdOut Packet :=
  (parsePacketM hello compress).val ⟨rd, 0⟩

/-! ### Parse-loop callers (`io/transport.rs`, `connection.rs`) -/

/-- The read-buffer effect of `ClickhouseTransportProj::try_parse_msg`
(`io/transport.rs`): on `WouldBlock` the buffer is left untouched; on any
other outcome the `ptr::copy` + `set_len` pair keeps the
`len - pos` bytes starting at the parser's final cursor position. -/
def tryParseMsgBuf (hello : Option HelloRequest) (compress : Bool) (rd : List Nat) : List Nat :=
  match (parsePacketRun hello compress rd).res with
  | Except.error PErr.wouldBlock => rd
  | _ =>
    (rd.drop (parsePacketRun hello compress rd).pos).take
      (rd.length - (parsePacketRun hello compress rd).pos)

/-- The buffer effect of `Connection::parse_packet` (`connection.rs`): the
parser runs with no stored Hello and `compress = true`; on success the
`BytesMut` is advanced by the cursor position, on `WouldBlock` it is kept
(`Ok(None)`), and any other error is surfaced. -/
def connParsePacket (buffer : List Nat) : Except PErr (Option Packet × List Nat) :=
  match (parsePacketRun none true buffer).res with
  | Except.ok packet =>
    Except.ok (some packet, buffer.drop (parsePacketRun none true buffer).pos)
  | Except.error e =>
    if e.is_would_block then Except.ok (none, buffer) else Except.error e

/-! ### Session, server errors and the exception encoder -/

/-- The server-identity half of the `ClickHouseSession` trait, with the
default values of `src/lib.rs`. -/
structure Session where
  dbms_name : String := "clickhouse-server"
  dbms_version_major : Nat := 19
  dbms_version_minor : Nat := 17
  dbms_tcp_protocol_version : Nat := 54428
  timezone : String := "UTC"
  server_display_name : String := "clickhouse-server"
  dbms_version_patch : Nat := 1
  with_stack_trace : Bool := false
deriving DecidableEq

/-- A session whose every identity field is the trait default. -/
def defaultSession : Session := {}

/-- Modelled from the spec: a server error carries a numeric code, a message
and an optional stack trace (§7; `errors.rs` is absent from the tree). -/
structure ServerException where
  code : Nat
  name : String := ""
  message : String
  stack_trace : String := ""
deriving DecidableEq

/-- Modelled from the spec: the error sum the transport handles — server
errors from the executor, driver errors from the parser, and everything
else (§7; `errors.rs` is absent from the tree). -/
inductive CHError where
  | server (e : ServerException)
  | driver (e : PErr)
  | other (msg : String)
deriving DecidableEq

/-- Modelled from the spec: `Error::to_string`.  The spec pins the rendering
only for server errors — scenario 5 of §8 expects the wire message of an
executor error with message `"bad"` to be exactly `"bad"` — so a server
error renders as its message. -/
def CHError.toMessage : CHError → String
  | CHError.server e => e.message
  | CHError.driver _ => "driver error"
  | CHError.other msg => msg

/-- Modelled from the spec: the numeric value of
`ErrorCodes::UNEXPECTED_PACKET_FROM_CLIENT` in the ClickHouse error-code
table (`error_codes.rs` is absent from the tree). -/
def UNEXPECTED_PACKET_FROM_CLIENT : Nat := 101

/-- The writes of `ExceptionResponse::encode`
(`protocols/protocol_exception.rs`): tag, code, empty name, the rendered
error, the stack trace (only under `with_stack_trace`, only for server
errors), and `nested = false`.  The source also computes a local `message`
holding the server error's message and never writes it; the message field
on the wire is `error.to_string()`. -/
def exceptionResponseEncode (error : CHError) (with_stack_trace : Bool) : List Enc :=
  let code :=
    match error with
    | CHError.server e => e.code
    | _ => UNEXPECTED_PACKET_FROM_CLIENT
  let stack_trace :=
    match error with
    | CHError.server e => if with_stack_trace then e.stack_trace else ""
    | _ => ""
  [Enc.uvarint SERVER_EXCEPTION, Enc.fixu32 code, Enc.str "",
   Enc.str error.toMessage, Enc.str stack_trace, Enc.byte 0]

/-! ### The Hello response (`protocols/protocol_hello.rs` is absent) -/

/-- The HelloResponse tuple as built in both dispatchers. -/
structure HelloResponse where
  dbms_name : String
  dbms_version_major : Nat
  dbms_version_minor : Nat
  dbms_tcp_protocol_version : Nat
  timezone : String
  server_display_name : String
  dbms_version_patch : Nat
deriving DecidableEq

/-- The HelloResponse both dispatchers assemble from the session. -/
def sessionHelloResponse (sess : Session) : HelloResponse :=
  { dbms_name := sess.dbms_name,
    dbms_version_major := sess.dbms_version_major,
    dbms_version_minor := sess.dbms_version_minor,
    dbms_tcp_protocol_version := sess.dbms_tcp_protocol_version,
    timezone := sess.timezone,
    server_display_name := sess.server_display_name,
    dbms_version_patch := sess.dbms_version_patch }

/-- Modelled from the spec: `HelloResponse::encode` gated on the negotiated
revision — the timezone, display-name and version-patch fields are omitted
when the revision is below their thresholds (§4.5). -/
def helloResponseEncode (r : HelloResponse) (client_revision : Nat) : List Enc :=
  [Enc.uvarint SERVER_HELLO, Enc.str r.dbms_name,
   Enc.uvarint r.dbms_version_major, Enc.uvarint r.dbms_version_minor,
   Enc.uvarint r.dbms_tcp_protocol_version]
  ++ (if DBMS_MIN_REVISION_WITH_SERVER_TIMEZONE ≤ client_revision
      then [Enc.str r.timezone] else [])
  ++ (if DBMS_MIN_REVISION_WITH_SERVER_DISPLAY_NAME ≤ client_revision
      then [Enc.str r.server_display_name] else [])
  ++ (if DBMS_MIN_REVISION_WITH_VERSION_PATCH ≤ client_revision
      then [Enc.uvarint r.dbms_version_patch] else [])

/-! ### The transport dispatcher (`io/transport.rs`) -/

/-- The per-connection `QueryState` of `src/lib.rs` (strings kept as raw
bytes, as the parser produces them). -/
structure QueryState where
  query_id : List Nat := []
  stage : Nat := 0
  compression : Nat := 0
  query : List Nat := []
  is_cancelled : Bool := false
  is_connection_closed : Bool := false
  is_empty : Bool := false
  sent_all_data : Bool := false
deriving DecidableEq

/-- `QueryState::reset` (`src/lib.rs`): stage back to 0 and the four
transient flags cleared; query text, query id and compression survive. -/
def QueryState.reset (s : QueryState) : QueryState :=
  { s with
    stage := 0,
    is_cancelled := false,
    is_connection_closed := false,
    is_empty := false,
    sent_all_data := false }

/-- The transport-owned mutable connection context
(`ClickhouseTransport`): the query state (through `CHContext`), the stored
HelloRequest, the negotiated revision and the read buffer. -/
structure TransportState where
  state : QueryState := {}
  hello : Option HelloRequest := none
  client_revision : Nat := 0
  rd : List Nat := []
deriving DecidableEq

/-- The synchronous part of `ClickhouseTransportProj::response`
(`io/transport.rs`): the unconditional `state.reset()`, then the per-packet
arm.  The returned list is what the arm writes into the fresh write stream
before returning (the Query arm's result streaming runs on a spawned
thread and is modelled by `queryThreadSentT` below). -/
def transportResponse (sess : Session) (ts : TransportState) (packet : Packet) :
    TransportState × List Enc :=
  let st := ts.state.reset
  match packet with
  | Packet.ping => ({ ts with state := st }, [Enc.uvarint SERVER_PONG])
  | Packet.cancel => ({ ts with state := st }, [])
  | Packet.hello h =>
    let response := sessionHelloResponse sess
    let negotiated := min sess.dbms_tcp_protocol_version h.client_revision
    let h := { h with client_revision := negotiated }
    ({ ts with
       state := st,
       client_revision := negotiated,
       hello := some h },
     helloResponseEncode response negotiated)
  | Packet.query q =>
    let st := { st with
                query := q.query,
                stage := q.stage,
                compression := q.compression }
    ({ ts with state := st, rd := [] }, [])
  | Packet.data _ => ({ ts with state := st }, [])

/-- The writes of `ClickhouseTransportProj::response_error_packet`
(`io/transport.rs`): on `UnknownPacket` with leading byte `G` or `P` the
length-prefixed courtesy string is enqueued and the function returns `Err`
(so `poll_next` flushes and surfaces the error, closing the connection —
the `Bool` in the result records that `Err` return); every other error is
absorbed. -/
def responseErrorPacket (err : CHError) : List Nat × Bool :=
  match err with
  | CHError.driver (PErr.unknownPacket packet) =>
    if packet = 71 ∨ packet = 80 then
      (encBytes [Enc.str "HTTP/1.0 400 Bad Request, maybe you are using http port\r\n\r\n"],
       true)
    else ([], false)
  | _ => ([], false)

/-! ### The query streaming thread (`io/transport.rs`, `Packet::Query` arm)

The spawned thread's output is modelled at frame granularity: each
`sender.send` of an encoder buffer contributes the frames written into that
buffer, tagged with the instant (in milliseconds) at which the buffer was
built.  The executor outcome is the input: either `execute_query` failed,
or it produced a timed list of `Result<Block>` stream items. -/

/-- One server-to-client frame of a query response. -/
inductive SFrame where
  | progress
  | data (b : Block)
  | exception (e : CHError)
  | endOfStream
deriving DecidableEq

/-- The `while let Some(block) = …` loop: for `Ok(block)`, a Progress frame
is emitted (and the shared timestamp updated) iff at least 10 ms elapsed
since the timestamp, then the block; for `Err(e)`, an Exception frame and
an end-of-stream marker are emitted and the loop continues with the next
item — the source has no `break`.  Returns the timed frames and the final
timestamp value. -/
def streamLoopT (tLast : Nat) :
    List (Nat × Except CHError Block) → List (Nat × SFrame) × Nat
  | [] => ([], tLast)
  | (t, item) :: rest =>
    match item with
    | Except.ok b =>
      if 10 ≤ t - tLast then
        let next := streamLoopT t rest
        ((t, SFrame.progress) :: (t, SFrame.data b) :: next.1, next.2)
      else
        let next := streamLoopT tLast rest
        ((t, SFrame.data b) :: next.1, next.2)
    | Except.error e =>
      let next := streamLoopT tLast rest
      ((t, SFrame.exception e) :: (t, SFrame.endOfStream) :: next.1, next.2)

/-- The frames the spawned query thread actually sends, with emission times:
on `execute_query` error the exception and end-of-stream are written into a
local encoder whose buffer is never handed to `sender.send`, so nothing is
sent; on success the stream loop runs and then a final Progress snapshot
and the end-of-stream marker are sent unconditionally at stream end. -/
def queryThreadSentT (tLast : Nat) (tEnd : Nat)
    (execResult : Except CHError (List (Nat × Except CHError Block))) :
    List (Nat × SFrame) :=
  match execResult with
  | Except.error _e => []
  | Except.ok items =>
    (streamLoopT tLast items).1 ++ [(tEnd, SFrame.progress), (tEnd, SFrame.endOfStream)]

/-- The untimed frame sequence the query thread sends. -/
def queryThreadSent (tLast : Nat) (tEnd : Nat)
    (execResult : Except CHError (List (Nat × Except CHError Block))) : List SFrame :=
  (queryThreadSentT tLast tEnd execResult).map Prod.snd

/-- The pacing property the spec claims of Progress frames: relative to a
starting timestamp, every Progress emission in a timed frame list happens
at least 10 ms after the previous one (or after the start for the first). -/
def progChainB : Nat → List (Nat × SFrame) → Bool
  | _, [] => true
  | tLast, (t, SFrame.progress) :: rest => decide (tLast + 10 ≤ t) && progChainB t rest
  | tLast, _ :: rest => progChainB tLast rest

/-! ### The `Cmd::apply` dispatcher (`src/cmd.rs`) -/

/-- Modelled from the spec: the INSERT lifecycle stage (§3; the `Stage`
enum's definition is absent from the tree). -/
inductive Stage where
  | default
  | insertPrepare
  | insertStart
deriving DecidableEq

/-- Modelled from the spec: the QueryState variant `Cmd::apply` works on —
as §3, with the lifecycle stage as an enum and the optional INSERT
out-sink (its definition is absent from the tree; presence of the sink is
what the dispatcher inspects). -/
structure CmdQueryState where
  query_id : List Nat := []
  stage : Stage := Stage.default
  compression : Nat := 0
  query : List Nat := []
  out : Option Unit := none
  is_cancelled : Bool := false
  is_connection_closed : Bool := false
  is_empty : Bool := false
  sent_all_data : Bool := false
deriving DecidableEq

/-- Modelled from the spec: reset of the stage-scoped state (§3, §5): the
transient flags are cleared, the stage returns to Default and the INSERT
sink is dropped, signalling end-of-input to the executor. -/
def CmdQueryState.reset (s : CmdQueryState) : CmdQueryState :=
  { s with
    stage := Stage.default,
    out := none,
    is_cancelled := false,
    is_connection_closed := false,
    is_empty := false,
    sent_all_data := false }

/-- The `CHContext` as `Cmd::apply` uses it: query state, stored Hello and
negotiated revision. -/
structure CmdCtx where
  state : CmdQueryState := {}
  hello : Option HelloRequest := none
  client_revision : Nat := 0
deriving DecidableEq

/-- One observable effect of `Cmd::apply`: bytes written through the
connection, the end-of-stream write, or a block pushed into the INSERT
sink. -/
inductive CmdEff where
  | wroteBytes (items : List Enc)
  | wroteEndOfStream
  | sinkSend (b : Block)
deriving DecidableEq

/-- The dispatcher `Cmd::apply` (`src/cmd.rs`).  `exec` stands for the
executor call of the Query arm: an error, or the out-sink state after
`execute_query` returns (`some` = an INSERT sink was installed).  The
final encoder flush (`write_bytes` iff the buffer is non-empty) is folded
into each arm's effect list. -/
def cmdApply (exec : Except CHError (Option Unit)) (sess : Session)
    (ctx : CmdCtx) (packet : Packet) : Except CHError (CmdCtx × List CmdEff) :=
  match packet with
  | Packet.ping => Except.ok (ctx, [CmdEff.wroteBytes [Enc.uvarint SERVER_PONG]])
  | Packet.cancel => Except.ok (ctx, [])
  | Packet.hello h =>
    let response := sessionHelloResponse sess
    let negotiated := min sess.dbms_tcp_protocol_version h.client_revision
    Except.ok
      ({ ctx with client_revision := negotiated, hello := some h },
       [CmdEff.wroteBytes (helloResponseEncode response negotiated)])
  | Packet.query q =>
    match exec with
    | Except.error e => Except.error e
    | Except.ok outSink =>
      let st := { ctx.state with
                  query := q.query,
                  compression := q.compression,
                  out := outSink }
      if outSink.isSome then
        Except.ok ({ ctx with state := { st with stage := Stage.insertPrepare } }, [])
      else
        Except.ok ({ ctx with state := st }, [CmdEff.wroteEndOfStream])
  | Packet.data block =>
    if block.is_empty then
      match ctx.state.stage with
      | Stage.insertPrepare =>
        Except.ok ({ ctx with state := { ctx.state with stage := Stage.insertStart } }, [])
      | Stage.insertStart =>
        let st := { ctx.state with stage := Stage.default }
        Except.ok ({ ctx with state := st.reset }, [CmdEff.wroteEndOfStream])
      | Stage.default => Except.ok (ctx, [])
    else
      match ctx.state.out with
      | some _ => Except.ok (ctx, [CmdEff.sinkSend block])
      | none => Except.ok (ctx, [])

/-! ### Helper lemmas about the reader monad -/

/-- Inversion of a successful `M.bind`: the first reader succeeded and the
continuation succeeded from its final position. -/
theorem M.bind_ok {α β : Type} {x : M α} {f : α → M β} {c : Cursor} {b : β}
    (h : ((M.bind x f).val c).res = Except.ok b) :
    ∃ a, (x.val c).res = Except.ok a ∧
      ((f a).val ⟨c.data, (x.val c).pos⟩).res = Except.ok b := by
  dsimp only [M.bind] at h
  cases hres : (x.val c).res with
  | error e =>
    rw [hres] at h
    cases h
  | ok a =>
    rw [hres] at h
    exact ⟨a, rfl, h⟩

/-- A successful `M.pure` returns exactly its argument. -/
theorem M.pure_ok {α : Type} {a : α} {c : Cursor} {b : α}
    (h : ((M.pure a).val c).res = Except.ok b) : b = a := by
  dsimp only [M.pure] at h
  cases h
  rfl

/-- `M.fail` never succeeds. -/
theorem M.fail_not_ok {α : Type} {e : PErr} {c : Cursor} {b : α}
    (h : ((M.fail e).val c).res = Except.ok b) : False := by
  dsimp only [M.fail] at h
  cases h

/-- `parse_data` only ever produces a `Data` packet. -/
theorem parseDataM_ok {compress : Bool} {c : Cursor} {b : Packet}
    (h : ((parseDataM compress).val c).res = Except.ok b) :
    ∃ blk, b = Packet.data blk := by
  dsimp only [parseDataM] at h
  obtain ⟨s, _, h2⟩ := M.bind_ok h
  obtain ⟨blk, _, h3⟩ := M.bind_ok h2
  exact ⟨blk, M.pure_ok h3⟩

/-- `parse_hello` only ever produces a `Hello` packet. -/
theorem parseHelloM_ok {c : Cursor} {b : Packet}
    (h : (parseHelloM.val c).res = Except.ok b) :
    ∃ req, b = Packet.hello req := by
  dsimp only [parseHelloM] at h
  obtain ⟨req, _, h2⟩ := M.bind_ok h
  exact ⟨req, M.pure_ok h2⟩

/-- A packet result is a `Query` variant. -/
def isQueryRes (o : RdOut Packet) : Bool :=
  match o.res with
  | Except.ok (Packet.query _) => true
  | _ => false

/-! ### Concrete fixtures used by witnesses and counterexamples -/

/-- A Hello request offering protocol revision 5. -/
def helloRev5 : HelloRequest := { client_revision := 5 }

/-- A Hello request offering protocol revision 3. -/
def helloRev3 : HelloRequest := { client_revision := 3 }

/-- A transport context whose query state carries a running query (the
situation in which a client sends `Cancel`). -/
def tsExecuting : TransportState :=
  { state := { query := asciiBytes "SELECT 1", stage := 2 } }

/-- A transport context whose `stage` field holds the `InsertStart` ordinal,
i.e. an INSERT whose data blocks are being received. -/
def tsInsertStart : TransportState :=
  { state := { query := asciiBytes "INSERT INTO t VALUES", stage := 2 } }

/-- An empty data block (zero rows): the INSERT terminator. -/
def emptyBlock : Block := {}

/-- A one-row block. -/
def blkOne : Block :=
  { n_rows := 1, columns := [{ name := asciiBytes "abc", typ := asciiBytes "UInt8", data := [7] }] }

/-- The server exception of spec scenario 5: code 42, message `"bad"`. -/
def err42 : CHError := CHError.server { code := 42, message := "bad" }

/-! ### C10 -/

/-- C10: when a Query packet is dispatched, `ClickhouseTransportProj::response`
unconditionally clears the entire read buffer (`self.rd.clear()`), so every
byte a client pipelined behind the Query is discarded and never parsed. -/
theorem query_dispatch_clears_read_buffer (sess : Session) (ts : TransportState)
    (q : QueryRequest) :
    (transportResponse sess ts (Packet.query q)).1.rd = [] := rfl

/-! ### C4 — the Cancel handler is an unimplemented no-op -/

/-- C4 (code evaluated at the failing input): dispatching `Cancel` during a
running query leaves `is_cancelled` at `false` on both dispatch paths — the
`Packet::Cancel` arms are `// todo cancel` no-ops, and the transport's
unconditional `state.reset()` even forces the flag to `false` — while no
response bytes are written.  The claim (and the spec) say the handler sets
`is_cancelled` to `true`. -/
theorem cancel_handler_does_not_set_flag :
    (transportResponse defaultSession tsExecuting Packet.cancel).1.state.is_cancelled = false ∧
    (transportResponse defaultSession tsExecuting Packet.cancel).2 = [] ∧
    cmdApply (Except.ok none) defaultSession { state := { stage := Stage.default } }
        Packet.cancel =
      Except.ok ({ state := { stage := Stage.default } }, []) := by
  exact ⟨rfl, rfl, rfl⟩

/-! ### C5 -/

/-- C5: for a server error carrying code `c`, message `m` and stack trace
`s`, the serialized exception frame is the `SERVER_EXCEPTION` tag followed
by code `c`, an empty name, the message, the stack trace iff
`with_stack_trace`, and `nested = false`
(`ExceptionResponse::encode`, with `Error::to_string` modelled from the
spec as rendering a server error as its message). -/
theorem exception_frame_layout (c : Nat) (m s : String) (wst : Bool) :
    exceptionResponseEncode (CHError.server { code := c, message := m, stack_trace := s }) wst =
      [Enc.uvarint SERVER_EXCEPTION, Enc.fixu32 c, Enc.str "", Enc.str m,
       Enc.str (if wst then s else ""), Enc.byte 0] := rfl

/-! ### C1 — Hello negotiation -/

/-- C1 (amended): dispatching `Hello(req)` stores
`client_revision = min(server_supported, req.client_revision)`, replies with
the HelloResponse encoded gated on that negotiated revision, and from any
connection state whatsoever a dispatched non-Hello packet preserves the
stored revision — so after Hello only a further Hello (which re-runs the
negotiation, see the counterexample) ever changes it; `Cmd::apply`
negotiates the same minimum. -/
theorem hello_negotiates_min_revision (sess : Session) (ts : TransportState)
    (req : HelloRequest) :
    (transportResponse sess ts (Packet.hello req)).1.client_revision
        = min sess.dbms_tcp_protocol_version req.client_revision ∧
    (transportResponse sess ts (Packet.hello req)).2
        = helloResponseEncode (sessionHelloResponse sess)
            (min sess.dbms_tcp_protocol_version req.client_revision) ∧
    (∀ (later : TransportState) (p : Packet), (∀ r, p ≠ Packet.hello r) →
      (transportResponse sess later p).1.client_revision = later.client_revision) ∧
    (∀ exec ctx ctx' effs,
      cmdApply exec sess ctx (Packet.hello req) = Except.ok (ctx', effs) →
      ctx'.client_revision = min sess.dbms_tcp_protocol_version req.client_revision) := by
  refine ⟨rfl, rfl, ?_, ?_⟩
  · intro later p hp
    cases p with
    | ping => rfl
    | cancel => rfl
    | hello r => exact absurd rfl (hp r)
    | query q => rfl
    | data b => rfl
  · intro exec ctx ctx' effs h
    dsimp only [cmdApply] at h
    cases h
    rfl

/-- C1 witness: negotiation at the default session (server revision 54428)
with an offered revision 5 yields 5, and a subsequent Ping leaves it at 5. -/
theorem hello_negotiates_min_revision_witness :
    (transportResponse defaultSession {} (Packet.hello helloRev5)).1.client_revision = 5 ∧
    (transportResponse defaultSession
        (transportResponse defaultSession {} (Packet.hello helloRev5)).1
        Packet.ping).1.client_revision = 5 := by
  have h := hello_negotiates_min_revision defaultSession {} helloRev5
  have h2 := h.2.2.1 (transportResponse defaultSession {} (Packet.hello helloRev5)).1
    Packet.ping (by intro r hr; cases hr)
  exact ⟨h.1.trans (by decide), h2.trans (h.1.trans (by decide))⟩

/-- C1 counterexample: the stored revision does change after Hello if the
client sends a second Hello — offering 5 then 3 leaves the connection at
revision 3, so "never changes for the lifetime of the connection after
Hello" fails as stated. -/
theorem hello_revision_changes_on_second_hello :
    (transportResponse defaultSession {} (Packet.hello helloRev5)).1.client_revision = 5 ∧
    (transportResponse defaultSession
        (transportResponse defaultSession {} (Packet.hello helloRev5)).1
        (Packet.hello helloRev3)).1.client_revision = 3 := by
  exact ⟨by decide, by decide⟩

/-! ### C3 — the Data-packet lifecycle -/

/-- C3 (amended): on the `Cmd::apply` dispatch path an empty Data block in
`InsertPrepare` moves the stage to `InsertStart` writing nothing; an empty
Data block in `InsertStart` resets the stage-scoped state (stage back to
`Default`, sink dropped, flags cleared) and writes exactly one
`SERVER_END_OF_STREAM`; a non-empty Data block is pushed into the INSERT
sink when one is installed.  The transport dispatch path does not implement
these transitions (see the counterexample). -/
theorem insert_data_transitions (exec : Except CHError (Option Unit)) (sess : Session)
    (ctx : CmdCtx) (b : Block) :
    (b.is_empty = true → ctx.state.stage = Stage.insertPrepare →
      cmdApply exec sess ctx (Packet.data b) =
        Except.ok ({ ctx with state := { ctx.state with stage := Stage.insertStart } }, [])) ∧
    (b.is_empty = true → ctx.state.stage = Stage.insertStart →
      cmdApply exec sess ctx (Packet.data b) =
        Except.ok ({ ctx with state := ctx.state.reset }, [CmdEff.wroteEndOfStream])) ∧
    (b.is_empty = false → ∀ u, ctx.state.out = some u →
      cmdApply exec sess ctx (Packet.data b) =
        Except.ok (ctx, [CmdEff.sinkSend b])) := by
  refine ⟨?_, ?_, ?_⟩
  · intro he hs
    simp only [cmdApply, he, if_true, hs]
  · intro he hs
    simp only [cmdApply, he, if_true, hs, CmdQueryState.reset]
  · intro he u hu
    simp only [cmdApply, he, Bool.false_eq_true, if_false, hu]

/-- C3 witness: the `InsertStart` + empty-block transition evaluated at a
concrete context. -/
theorem insert_data_transitions_witness :
    cmdApply (Except.ok none) defaultSession
        { state := { stage := Stage.insertStart, out := some () } } (Packet.data emptyBlock) =
      Except.ok
        ({ state := ({ stage := Stage.insertStart, out := some () } : CmdQueryState).reset },
         [CmdEff.wroteEndOfStream]) :=
  (insert_data_transitions (Except.ok none) defaultSession
      { state := { stage := Stage.insertStart, out := some () } } emptyBlock).2.1 rfl rfl

/-- C3 counterexample: the transport's own Data arm (`Packet::Data(_) =>
// TODO inserts`) is a no-op — an empty Data block arriving while an INSERT
is in progress emits no bytes at all (in particular no
`SERVER_END_OF_STREAM`) and only performs the unconditional `reset`, so the
claimed transitions do not happen on every code path that dispatches Data
packets. -/
theorem data_dispatch_transport_is_noop :
    (transportResponse defaultSession tsInsertStart (Packet.data emptyBlock)).2 = [] ∧
    (transportResponse defaultSession tsInsertStart (Packet.data emptyBlock)).1 =
      { tsInsertStart with state := tsInsertStart.state.reset } := by
  exact ⟨rfl, rfl⟩

/-! ### C2 — exception frames on the error paths -/

/-- C2 (code evaluated at the failing inputs): when `execute_query` returns
an error, the `Err(err)` arm writes the exception frame and the
end-of-stream marker into a local encoder whose buffer is never handed to
`sender.send`, so nothing at all is sent; and when the block stream yields
`Err(e)`, the loop has no `break`, so after the exception frame and its
end-of-stream marker the unconditional final Progress snapshot and a second
`SERVER_END_OF_STREAM` still follow. -/
theorem executor_error_frames_dropped :
    queryThreadSent 0 20 (Except.error err42) = [] ∧
    queryThreadSent 0 20 (Except.ok [(0, Except.error err42)]) =
      [SFrame.exception err42, SFrame.endOfStream, SFrame.progress, SFrame.endOfStream] := by
  exact ⟨rfl, rfl⟩

/-! ### C6 — Progress pacing -/

/-- C6 (amended): every Progress frame that the gated per-block check emits
comes at least 10 ms after the previous progress-timestamp update (the
timestamp is connection-level, initialized at transport creation); the
final Progress snapshot at normal end of stream is emitted unconditionally,
with no minimum gap from the last gated emission. -/
theorem gated_progress_pacing (tLast : Nat)
    (items : List (Nat × Except CHError Block)) (tEnd : Nat) :
    progChainB tLast (streamLoopT tLast items).1 = true ∧
    queryThreadSentT tLast tEnd (Except.ok items) =
      (streamLoopT tLast items).1 ++ [(tEnd, SFrame.progress), (tEnd, SFrame.endOfStream)] := by
  refine ⟨?_, rfl⟩
  induction items generalizing tLast with
  | nil => rfl
  | cons item rest ih =>
    obtain ⟨t, item⟩ := item
    cases item with
    | ok b =>
      by_cases hgap : 10 ≤ t - tLast
      · simp only [streamLoopT, hgap, if_true, progChainB]
        have ht : tLast + 10 ≤ t := by omega
        simp only [decide_eq_true ht, Bool.true_and]
        exact ih t
      · simp only [streamLoopT, hgap, if_false, progChainB]
        exact ih tLast
    | error e =>
      simp only [streamLoopT, progChainB]
      exact ih tLast

/-- C6 counterexample: with the timestamp at 0, a single block arriving at
t = 10 ms emits a gated Progress at 10 ms; if the stream then ends at
t = 12 ms, the final Progress snapshot is emitted 2 ms after the previous
Progress emission, so the claimed 10 ms lower bound fails for the final
snapshot. -/
theorem final_progress_breaks_pacing :
    queryThreadSentT 0 12 (Except.ok [(10, Except.ok blkOne)]) =
      [(10, SFrame.progress), (10, SFrame.data blkOne),
       (12, SFrame.progress), (12, SFrame.endOfStream)] ∧
    progChainB 0 (queryThreadSentT 0 12 (Except.ok [(10, Except.ok blkOne)])) = false := by
  exact ⟨rfl, rfl⟩

/-! ### C7 — the HTTP courtesy response -/

/-- C7 (amended): on an `UnknownPacket` whose tag is ASCII `G` or `P`, the
transport writes the encoder's length-prefixed string — one varint length
byte 59 followed by the bytes of
`"HTTP/1.0 400 Bad Request, maybe you are using http port\r\n\r\n"` — and
then returns `Err`, which closes the connection. -/
theorem http_courtesy_bytes (packet : Nat) (h : packet = 71 ∨ packet = 80) :
    responseErrorPacket (CHError.driver (PErr.unknownPacket packet)) =
      (59 :: asciiBytes "HTTP/1.0 400 Bad Request, maybe you are using http port\r\n\r\n",
       true) := by
  rcases h with h | h <;> subst h <;> decide

/-- C7 witness: the courtesy response evaluated at tag `G` (71). -/
theorem http_courtesy_bytes_witness :
    responseErrorPacket (CHError.driver (PErr.unknownPacket 71)) =
      (59 :: asciiBytes "HTTP/1.0 400 Bad Request, maybe you are using http port\r\n\r\n",
       true) :=
  http_courtesy_bytes 71 (Or.inl rfl)

/-- C7 counterexample: the bytes actually written for tag `G` are not the
raw byte sequence `"HTTP/1.0 400 Bad Request\r\n\r\n"` — the source writes
a longer message and `Encoder::string` adds a varint length prefix. -/
theorem http_courtesy_bytes_not_raw :
    (responseErrorPacket (CHError.driver (PErr.unknownPacket 71))).1 ≠
      asciiBytes "HTTP/1.0 400 Bad Request\r\n\r\n" := by
  decide

/-! ### C8 — parse-loop buffer discipline -/

/-- C8: on `WouldBlock` both callers keep the buffered bytes untouched (the
parse cursor is recreated at position 0 on the next attempt, so the same
prefix is re-parsed), and on success both callers advance the buffer by
exactly the parser's final cursor position — which never exceeds the
buffer length (`try_parse_msg` in `io/transport.rs` and
`Connection::parse_packet` in `connection.rs`). -/
theorem parse_callers_buffer_discipline :
    (∀ hello compress rd,
      ((parsePacketRun hello compress rd).res = Except.error PErr.wouldBlock →
        tryParseMsgBuf hello compress rd = rd) ∧
      (∀ pkt, (parsePacketRun hello compress rd).res = Except.ok pkt →
        (parsePacketRun hello compress rd).pos ≤ rd.length ∧
        tryParseMsgBuf hello compress rd = rd.drop (parsePacketRun hello compress rd).pos)) ∧
    (∀ rd,
      ((parsePacketRun none true rd).res = Except.error PErr.wouldBlock →
        connParsePacket rd = Except.ok (none, rd)) ∧
      (∀ pkt, (parsePacketRun none true rd).res = Except.ok pkt →
        connParsePacket rd = Except.ok (some pkt, rd.drop (parsePacketRun none true rd).pos))) := by
  have hwf : ∀ (hello : Option HelloRequest) (compress : Bool) (rd : List Nat),
      (parsePacketRun hello compress rd).pos ≤ rd.length := by
    intro hello compress rd
    exact ((parsePacketM hello compress).property rd 0 (Nat.zero_le _)).2
  constructor
  · intro hello compress rd
    constructor
    · intro h
      unfold tryParseMsgBuf
      rw [h]
    · intro pkt h
      refine ⟨hwf hello compress rd, ?_⟩
      unfold tryParseMsgBuf
      rw [h]
      rw [← List.length_drop]
      exact List.take_length _
  · intro rd
    constructor
    · intro h
      unfold connParsePacket
      rw [h]
      rfl
    · intro pkt h
      unfold connParsePacket
      rw [h]

/-- C8 witness: a Ping byte followed by one pipelined byte — `try_parse_msg`
drops exactly the consumed byte, and `Connection::parse_packet` advances by
the same amount. -/
theorem parse_callers_buffer_discipline_witness :
    tryParseMsgBuf none false [4, 9] = [9] ∧
    connParsePacket [4, 9] = Except.ok (some Packet.ping, [9]) := by
  have h1 := (parse_callers_buffer_discipline.1 none false [4, 9]).2 Packet.ping rfl
  have h2 := (parse_callers_buffer_discipline.2 [4, 9]).2 Packet.ping rfl
  constructor
  · exact h1.2.trans (by decide)
  · exact h2.trans (congrArg (fun l => Except.ok (some Packet.ping, l)) (by decide))

/-! ### C9 — Query requires a preceding Hello -/

/-- Evaluation of `readByte` at the head of a non-empty buffer. -/
theorem readByte_cons (b : Nat) (rest : List Nat) :
    readByte.val ⟨b :: rest, 0⟩ = ⟨Except.ok b, 1⟩ := by
  dsimp only [readByte]
  rw [dif_pos (show 0 < (b :: rest).length from Nat.succ_pos rest.length)]
  rfl

/-- Evaluation of `readUVarint` on a buffer starting with a single-byte
varint. -/
theorem readUVarint_cons_small (b : Nat) (hb : b < 128) (rest : List Nat) :
    readUVarint.val ⟨b :: rest, 0⟩ = ⟨Except.ok b, 1⟩ := by
  dsimp only [readUVarint, readUVarintAux, M.bind]
  rw [readByte_cons]
  dsimp only
  rw [if_pos hb]
  dsimp only [M.pure]
  norm_num

/-- C9: with no stored HelloRequest, parsing a buffer that carries the
`CLIENT_QUERY` tag yields the `UnexpectedPacket` driver error, and no
buffer whatsoever can make the parser yield a `Query` packet
(`Parser::parse_query`, `binary/parser.rs`). -/
theorem query_before_hello_rejected :
    (∀ (compress : Bool) (rest : List Nat),
      (parsePacketRun none compress ((1 : Nat) :: rest)).res =
        Except.error PErr.unexpectedPacket) ∧
    (∀ (compress : Bool) (rd : List Nat),
      isQueryRes (parsePacketRun none compress rd) = false) := by
  constructor
  · intro compress rest
    unfold parsePacketRun parsePacketM
    dsimp only [M.bind]
    rw [readUVarint_cons_small 1 (by norm_num) rest]
    norm_num [CLIENT_PING, CLIENT_CANCEL, CLIENT_DATA, CLIENT_SCALAR, CLIENT_QUERY,
      parseQueryM, M.fail]
  · intro compress rd
    unfold isQueryRes
    cases hres : (parsePacketRun none compress rd).res with
    | error e => rfl
    | ok p =>
      cases p with
      | ping => rfl
      | cancel => rfl
      | hello r => rfl
      | data b => rfl
      | query q =>
        exfalso
        have h : ((parsePacketM none compress).val ⟨rd, 0⟩).res =
            Except.ok (Packet.query q) := hres
        dsimp only [parsePacketM] at h
        obtain ⟨tag, _, h2⟩ := M.bind_ok h
        split_ifs at h2
        · exact Packet.noConfusion (M.pure_ok h2)
        · exact Packet.noConfusion (M.pure_ok h2)
        · obtain ⟨blk, hblk⟩ := parseDataM_ok h2
          exact Packet.noConfusion hblk
        · dsimp only [parseQueryM] at h2
          exact M.fail_not_ok h2
        · obtain ⟨r, hr⟩ := parseHelloM_ok h2
          exact Packet.noConfusion hr
        · exact M.fail_not_ok h2
